import Mathlib

/-!
Verification of the AREA risk-analysis pipeline against its specification.

The Python sources are embedded shallowly:
* dictionaries become structures with `Option` fields (`none` = key absent);
* `dict.get(k, d)` becomes `Option.getD`;
* mutable state dictionaries become explicit state records threaded through
  the node functions;
* a Python `raise` that escapes a function becomes `Except.error`;
* external effects (file reads, the Prolog engine, the LLM service) become
  explicit parameters describing their outcome.

The Prolog rules file (`rules.pl`) is consulted by the heuristic analyzer but
is not part of the sources; the count/percentage predicates it defines are
modelled from the specification (marked `Modelled from the spec:` below).
-/

namespace Area

/-- The dedup-guarded error append used throughout the agents:
`if msg not in errs: errs.append(msg)`. -/
def appendDedup (errs : List String) (msg : String) : List String :=
  if msg ∈ errs then errs else errs ++ [msg]

/-- Python truthiness of an optional string: `None` and `""` are falsy. -/
def truthy : Option String → Bool
  | none => false
  | some s => s ≠ ""

/-- Python `a or b` on an optional string `a` and a string `b`
(as in `meta.get("run_id") or uuid.uuid4().hex`). -/
def pyOr (o : Option String) (d : String) : String :=
  match o with
  | none => d
  | some s => if s = "" then d else s

/-- Helper for `splitDot`: split a character list on a separator
character, keeping empty segments (Python `str.split(sep)` semantics). -/
def splitOnCharAux (c : Char) : List Char → List Char → List (List Char)
  | [], acc => [acc.reverse]
  | x :: xs, acc =>
      if x = c then acc.reverse :: splitOnCharAux c xs []
      else splitOnCharAux c xs (x :: acc)

/-- Python's `s.split(".")`: split on every dot, keeping empty segments
(`"".split(".") == [""]`, `"2.1".split(".") == ["2", "1"]`). -/
def splitDot (s : String) : List String :=
  (splitOnCharAux (Char.ofNat 0x2e) s.data []).map (fun l => String.mk l)

-- ================================
-- Fact extraction (heuristic analyzer, node_generate_prolog_facts)
-- ================================

/-- A Prolog fact asserted by `node_generate_prolog_facts`, in structured
form (the Python builds the corresponding term strings). -/
inductive Fact where
  | domainFact (d name : String)
  | subdomainFact (d s name : String)
  | riskFact (d s : String) (id : Nat) (title severity : String)
  | causalityEntity (d s : String) (id : Nat) (v : String)
  | causalityIntent (d s : String) (id : Nat) (v : String)
  | causalityTiming (d s : String) (id : Nat) (v : String)
  deriving DecidableEq, Repr

/-- `_escape_prolog_string`: escape backslashes, then single quotes. -/
def escapePrologString (s : String) : String :=
  ((s.replace ("\\") ("\\\\")).replace ("\x27") ("\\\x27"))

/-- The nested causality dict of a risk: each dimension is `none` when the
key is absent (or, for `entity`, not a dict); `some v` when the key maps to
a dict whose `"value"` entry is `v`. -/
structure CausalityDict where
  entity : Option (Option String)
  intent : Option (Option String)
  timing : Option (Option String)
  deriving DecidableEq, Repr

/-- A risk record as read by the fact generator: every field is optional,
mirroring `risk.get(...)` accesses. `flatEntity` etc. are the flat top-level
`"entity"`/`"intent"`/`"timing"` keys used when the nested causality dict
has no `entity` dict. -/
structure RiskRecord where
  title : Option String := none
  severity : Option String := none
  causality : Option CausalityDict := none
  flatEntity : Option String := none
  flatIntent : Option String := none
  flatTiming : Option String := none
  deriving DecidableEq, Repr

/-- The value of a subdomain key in the analysis dict: `risks` is `none`
when the `"risks"` key is absent (`content.get("risks", [])`). -/
structure Content where
  risks : Option (List RiskRecord) := none
  deriving DecidableEq, Repr

/-- The analysis payload: an insertion-ordered dict from subdomain keys to
contents, modelled as an association list. -/
abbrev Analysis := List (String × Content)

/-- `_extract_domain_name`: MIT-taxonomy domain display names
(the function is called with the already-split domain part, so its
`domain_key.split(".")[0]` is the identity here). -/
def extractDomainName (domainKey : String) : String :=
  match domainKey with
  | "1" => "Discrimination & Toxicity"
  | "2" => "Privacy & Security"
  | "3" => "Misinformation"
  | "4" => "Malicious actors"
  | "5" => "Human-Computer Interaction"
  | "6" => "Socioeconomic & Environmental"
  | "7" => "AI system safety, failures, & limitations"
  | _ => "Domain " ++ domainKey

/-- `_extract_subdomain_name`: MIT-taxonomy subdomain display names with the
`Subdomain D.S` fallback. -/
def extractSubdomainName (domainKey subdomainKey : String) : String :=
  let fullKey := domainKey ++ "." ++ subdomainKey
  match fullKey with
  | "1.1" => "Unfair discrimination and misrepresentation"
  | "1.2" => "Exposure to toxic content"
  | "1.3" => "Unequal performance across groups"
  | "2.1" => "Compromise of privacy by obtaining, leaking or correctly inferring sensitive information"
  | "2.2" => "AI system security vulnerabilities and attacks"
  | "3.1" => "False or misleading information"
  | "3.2" => "Pollution of information ecosystem and loss of consensus reality"
  | "4.1" => "Disinformation, surveillance, and influence at scale"
  | "4.2" => "Cyberattacks, weapon development or use, and mass harm"
  | "4.3" => "Fraud, scams, and targeted manipulation"
  | "5.1" => "Overreliance and unsafe use"
  | "5.2" => "Loss of human agency and autonomy"
  | "6.1" => "Power centralization and unfair distribution of benefits"
  | "6.2" => "Increased inequality and decline in employment quality"
  | "6.3" => "Economic and cultural devaluation of human effort"
  | "6.4" => "Competitive dynamics"
  | "6.5" => "Governance failure"
  | "6.6" => "Environmental harm"
  | "7.1" => "AI pursuing its own goals in conflict with human goals or values"
  | "7.2" => "AI possessing dangerous capabilities"
  | "7.3" => "Lack of capability or robustness"
  | "7.4" => "Lack of transparency or interpretability"
  | "7.5" => "AI welfare and rights"
  | "7.6" => "Multi-agent risks"
  | _ => "Subdomain " ++ fullKey

/-- The severity written into a risk fact: `risk.get("severity", "medium")`. -/
def severityOf (r : RiskRecord) : String :=
  r.severity.getD ("medium")

/-- The (entity, intent, timing) values written into the causality facts:
when the nested causality dict has an `entity` dict, all three come from the
nested dict (`.get(..., {}).get("value", "other")`), otherwise from the flat
top-level keys with default `"other"`. -/
def causalityValues (r : RiskRecord) : String × String × String :=
  let c := r.causality.getD ⟨none, none, none⟩
  match c.entity with
  | some ev =>
      (ev.getD ("other"),
       (c.intent.getD none).getD ("other"),
       (c.timing.getD none).getD ("other"))
  | none =>
      (r.flatEntity.getD ("other"),
       r.flatIntent.getD ("other"),
       r.flatTiming.getD ("other"))

/-- The four facts emitted for one risk at ordinal `id`
(`for risk_id, risk in enumerate(risks, start=1)` loop body). -/
def riskFacts (d s : String) (id : Nat) (r : RiskRecord) : List Fact :=
  let title := escapePrologString (r.title.getD (""))
  let (entity, intent, timing) := causalityValues r
  [Fact.riskFact d s id title (severityOf r),
   Fact.causalityEntity d s id entity,
   Fact.causalityIntent d s id intent,
   Fact.causalityTiming d s id timing]

/-- The enumerate-from-1 loop over a subdomain's risk list. -/
def riskBlock (d s : String) : Nat → List RiskRecord → List Fact
  | _, [] => []
  | id, r :: rs => riskFacts d s id r ++ riskBlock d s (id + 1) rs

/-- Accumulator of the fact-generation loop: the two seen-sets and the
facts list. -/
structure GenAcc where
  domainsSeen : List String
  subdomainsSeen : List String
  facts : List Fact
  deriving Repr

/-- One iteration of the fact-generation loop over `analysis.items()`:
read `content.get("risks", [])`, split the key on `"."`, skip keys that do
not split into exactly two parts, emit domain/subdomain facts on first
sight, then the per-risk facts. -/
def processItem (acc : GenAcc) (item : String × Content) : GenAcc :=
  let (domainSubdomain, content) := item
  let risks := content.risks.getD []
  match splitDot domainSubdomain with
  | [d, s] =>
      let acc :=
        if acc.domainsSeen.contains d then acc
        else
          { acc with
            facts := acc.facts ++
              [Fact.domainFact d (escapePrologString (extractDomainName d))],
            domainsSeen := acc.domainsSeen ++ [d] }
      let subdomainKey := d ++ "." ++ s
      let acc :=
        if acc.subdomainsSeen.contains subdomainKey then acc
        else
          { acc with
            facts := acc.facts ++
              [Fact.subdomainFact d s
                (escapePrologString (extractSubdomainName d s))],
            subdomainsSeen := acc.subdomainsSeen ++ [subdomainKey] }
      { acc with facts := acc.facts ++ riskBlock d s 1 risks }
  | _ => acc

/-- `node_generate_prolog_facts`, fact-building part: fold the loop body
over the analysis items starting from empty seen-sets and facts. -/
def genFacts (analysis : Analysis) : List Fact :=
  (analysis.foldl processItem ⟨[], [], []⟩).facts

/-- Number of risk facts in a fact list. -/
def countRiskFacts (facts : List Fact) : Nat :=
  facts.countP (fun f => match f with | Fact.riskFact _ _ _ _ _ => true | _ => false)

/-- Number of `causality_entity` facts in a fact list. -/
def countEntityFacts (facts : List Fact) : Nat :=
  facts.countP (fun f => match f with | Fact.causalityEntity _ _ _ _ => true | _ => false)

/-- Number of `causality_intent` facts in a fact list. -/
def countIntentFacts (facts : List Fact) : Nat :=
  facts.countP (fun f => match f with | Fact.causalityIntent _ _ _ _ => true | _ => false)

/-- Number of `causality_timing` facts in a fact list. -/
def countTimingFacts (facts : List Fact) : Nat :=
  facts.countP (fun f => match f with | Fact.causalityTiming _ _ _ _ => true | _ => false)

/-- A subdomain key splits into exactly two parts on `"."`. -/
def goodKey (k : String) : Bool :=
  (splitDot k).length = 2

/-- The risk-list length of one analysis item, counted only when its key
splits into exactly two parts. -/
def itemRiskCount (item : String × Content) : Nat :=
  if goodKey item.1 then (item.2.risks.getD []).length else 0

-- ================================
-- Fact-base queries (rules.pl predicates)
-- ================================

/-- Modelled from the spec: `total_risks/1` of the missing `rules.pl` —
the total risk count, i.e. the number of risk facts in the fact base
(§4.2 scalar totals). The query always has exactly one solution. -/
def total_risks (fb : List Fact) : Nat :=
  countRiskFacts fb

/-- Modelled from the spec: `risks_by_severity/2` — the per-severity count
over the severity partition (§4.2 scalar totals). -/
def risks_by_severity (fb : List Fact) (sev : String) : Nat :=
  fb.countP (fun f => match f with
    | Fact.riskFact _ _ _ _ s => s = sev
    | _ => false)

/-- Modelled from the spec: `risks_by_entity/2` — the per-entity count
over the causal-entity partition (§4.2 scalar totals). -/
def risks_by_entity (fb : List Fact) (ent : String) : Nat :=
  fb.countP (fun f => match f with
    | Fact.causalityEntity _ _ _ v => v = ent
    | _ => false)

/-- Modelled from the spec: `risks_by_intent/2` — the per-intent count
(§4.2 scalar totals). -/
def risks_by_intent (fb : List Fact) (int : String) : Nat :=
  fb.countP (fun f => match f with
    | Fact.causalityIntent _ _ _ v => v = int
    | _ => false)

/-- Modelled from the spec: `risks_by_timing/2` — the per-timing count
(§4.2 scalar totals). -/
def risks_by_timing (fb : List Fact) (tim : String) : Nat :=
  fb.countP (fun f => match f with
    | Fact.causalityTiming _ _ _ v => v = tim
    | _ => false)

/-- Modelled from the spec: `percentage_high_severity/1` —
`high_count / total * 100`; the query has no solution when the total is
zero (§4.2 percentages: zero denominator yields no result). -/
def percentage_high_severity (fb : List Fact) : Option ℚ :=
  let t := total_risks fb
  if t = 0 then none
  else some ((risks_by_severity fb ("high") : ℚ) / t * 100)

/-- Modelled from the spec: the distinct domains having at least one
high-severity risk, as enumerated by the query
`risks_in_domain_by_severity(D, high, C), C > 0` (the Python deduplicates
the solutions through a set). -/
def domains_with_high (fb : List Fact) : List String :=
  (fb.filterMap (fun f => match f with
    | Fact.riskFact d _ _ _ sev => if sev = "high" then some d else none
    | _ => none)).dedup

/-- Two-decimal rounding of a rational, for `round(x, 2)`.  (Python's
float `round` is round-half-to-even; the claims proved here do not depend
on the behaviour at exact .xx5 ties, so half-up is fixed here, cf. spec
§9 open question 3.) -/
def round2 (q : ℚ) : ℚ :=
  ((⌊q * 100 + 1 / 2⌋ : ℤ) : ℚ) / 100

/-- An alert record `{"alert": bool, "value": number}`. -/
structure AlertVal where
  alert : Bool
  value : ℚ
  deriving DecidableEq, Repr

/-- The `alerts` sub-dictionary built by `_run_pattern_analysis`
(lines 753–857).  Each field is `none` exactly when the corresponding
`try` block fails (unreachable over the typed fact base, but kept in the
type to mirror the per-metric failure isolation). -/
structure Alerts where
  critical_risk_concentration : Option AlertVal
  ai_dominance : Option AlertVal
  intentional_threats : Option AlertVal
  operational_risks : Option AlertVal
  low_preventable_ratio : Option AlertVal
  medium_risk_accumulation : Option AlertVal
  human_error_dominance : Option AlertVal
  high_risk_fragmentation : Option AlertVal
  deriving DecidableEq, Repr

/-- The alert-indicator computation of `_run_pattern_analysis`: each alert
recomputes its percentage from count queries with the guard
`(count / total * 100) if total > 0 else 0`, compares it strictly against
its fixed threshold, and stores the 2-decimal-rounded value.
`critical_risk_concentration` instead reads `percentage_high_severity/1`
and substitutes `0` when that query has no solution. -/
def runAlerts (fb : List Fact) : Alerts :=
  let total := total_risks fb
  let highPct := (percentage_high_severity fb).getD 0
  let aiPct : ℚ :=
    if total > 0 then (risks_by_entity fb ("ai") : ℚ) / total * 100 else 0
  let postPct : ℚ :=
    if total > 0 then (risks_by_timing fb ("post-deployment") : ℚ) / total * 100 else 0
  let prePct : ℚ :=
    if total > 0 then (risks_by_timing fb ("pre-deployment") : ℚ) / total * 100 else 0
  let mediumPct : ℚ :=
    if total > 0 then (risks_by_severity fb ("medium") : ℚ) / total * 100 else 0
  let humanPct : ℚ :=
    if total > 0 then (risks_by_entity fb ("human") : ℚ) / total * 100 else 0
  let intentCount := risks_by_intent fb ("intentional")
  let domainCount := (domains_with_high fb).length
  let highCount := risks_by_severity fb ("high")
  { critical_risk_concentration :=
      some ⟨decide (highPct > 40), round2 highPct⟩,
    ai_dominance := some ⟨decide (aiPct > 60), round2 aiPct⟩,
    intentional_threats := some ⟨decide (intentCount > 3), (intentCount : ℚ)⟩,
    operational_risks := some ⟨decide (postPct > 70), round2 postPct⟩,
    low_preventable_ratio := some ⟨decide (prePct < 10), round2 prePct⟩,
    medium_risk_accumulation := some ⟨decide (mediumPct > 40), round2 mediumPct⟩,
    human_error_dominance := some ⟨decide (humanPct > 50), round2 humanPct⟩,
    high_risk_fragmentation :=
      some ⟨decide (domainCount ≥ 4 ∧ highCount ≥ 6), (domainCount : ℚ)⟩ }

/-- Modelled from the spec: `percentage_ai_predeployment/1` — a percentage
rule of `rules.pl` whose denominator is the total risk count; no solution
when the total is zero (§4.2). -/
def percentage_ai_predeployment (fb : List Fact) : Option ℚ :=
  let t := total_risks fb
  if t = 0 then none
  else
    some ((fb.countP (fun f => match f with
      | Fact.causalityTiming d s id v =>
        v = "pre-deployment" ∧
        Fact.causalityEntity d s id ("ai") ∈ fb
      | _ => false) : ℚ) / t * 100)

/-- Modelled from the spec: `percentage_high_intentional/1` — percentage
rule with the total risk count as denominator; no solution at zero (§4.2). -/
def percentage_high_intentional (fb : List Fact) : Option ℚ :=
  let t := total_risks fb
  if t = 0 then none
  else
    some ((fb.countP (fun f => match f with
      | Fact.riskFact d s id _ sev =>
        sev = "high" ∧ Fact.causalityIntent d s id ("intentional") ∈ fb
      | _ => false) : ℚ) / t * 100)

/-- Modelled from the spec: `ai_human_ratio/1` — the ratio of ai-entity to
human-entity risks; no solution when the human count (the denominator) is
zero (§4.2: division by zero yields no result). -/
def ai_human_ratio (fb : List Fact) : Option ℚ :=
  let h := risks_by_entity fb ("human")
  if h = 0 then none
  else some ((risks_by_entity fb ("ai") : ℚ) / h)

/-- The `distribution_metrics` sub-dictionary of `_run_pattern_analysis`
(lines 728–751): each Prolog percentage query is read, rounded to two
decimals, and set to `None` when the query fails (empty solution list →
`IndexError` → caught). -/
structure DistributionMetrics where
  ai_predeployment_percentage : Option ℚ
  high_intentional_percentage : Option ℚ
  ai_human_ratio : Option ℚ
  deriving DecidableEq, Repr

/-- The distribution-metric computation of `_run_pattern_analysis`. -/
def runDistributionMetrics (fb : List Fact) : DistributionMetrics :=
  { ai_predeployment_percentage :=
      (percentage_ai_predeployment fb).map round2,
    high_intentional_percentage :=
      (percentage_high_intentional fb).map round2,
    ai_human_ratio := (ai_human_ratio fb).map round2 }

/-- The fragment of `_run_pattern_analysis`'s result dictionary covered by
the claims: the alert indicators and the distribution metrics.  (The
pattern-count subsections query 18 further `rules.pl` predicates that no
claim references; they are outside the modelled fragment.) -/
structure PatternResults where
  distribution_metrics : DistributionMetrics
  alerts : Alerts
  deriving DecidableEq, Repr

/-- `_run_pattern_analysis`, restricted to the modelled fragment. -/
def run_pattern_analysis (fb : List Fact) : PatternResults :=
  { distribution_metrics := runDistributionMetrics fb,
    alerts := runAlerts fb }

-- ================================
-- Run metadata
-- ================================

/-- The metadata dictionary threaded through the stages, restricted to the
fields the claims are about.  `run_id = none` models an absent key. -/
structure Metadata where
  run_id : Option String := none
  deriving DecidableEq, Repr

/-- The message recorded by the heuristic stage's Persist state when the
run id is missing (`f"Save failed: {str(e)}"` around the internal
`RuntimeError`). -/
def heuristicSaveMissingMsg : String :=
  "Save failed: Missing run_id in state; run must start from domain analyzer"

/-- The message recorded by the domain stage's Persist state when the run
id is missing (`f"{str(e)}"` of the internal `RuntimeError`). -/
def domainSaveMissingMsg : String :=
  "Missing run_id in state; ensure the flow starts from domain analyzer which creates run_id"

/-- The message recorded by the causality stage's Persist state when the
run id is missing (`f"{str(e)}"` of the internal `RuntimeError`). -/
def causalitySaveMissingMsg : String :=
  "Missing run_id in state; run must start from domain analyzer"

-- ================================
-- Heuristic analyzer stage (heuristic_risk_analyzer_agent.py)
-- ================================

namespace Heuristic

/-- `HeuristicAnalysisState`: the state dict of the heuristic stage.
`metadata = none` / `analysis = none` model absent-or-null entries;
`prolog : Bool` records whether a Prolog instance has been stored. -/
structure HState where
  metadata : Option Metadata := none
  analysis : Option Analysis := none
  heuristic : Option PatternResults := none
  prolog_facts : List Fact := []
  prolog : Bool := false
  errors : List String := []
  deriving Repr

/-- NODE 1, `node_load`: reset errors, record a deduplicated error when no
analysis payload is present, default the metadata dict, return normally. -/
def node_load (s : HState) : HState :=
  let s := { s with errors := [] }
  if s.analysis = none then
    { s with errors := appendDedup s.errors ("No analysis data present in initial state") }
  else
    { s with metadata := some (s.metadata.getD {}) }

/-- NODE 2, `node_generate_prolog_facts`: build the fact base from the
analysis payload (the surrounding `try` can only fail on untyped input, so
the error branch is unreachable over this typed state). -/
def node_generate_prolog_facts (s : HState) : HState :=
  { s with prolog_facts := genFacts (s.analysis.getD []) }

/-- NODE 3, `node_initialize_prolog`: consult `rules.pl` and assert the
facts.  `env = some m` is the outcome in which the external Prolog engine
fails (missing rules file, rejected assert): the node then appends the
message to the error list **and re-raises a `RuntimeError`**, which escapes
the node (`Except.error`).  On success the Prolog instance is stored. -/
def node_initialize_prolog (env : Option String) (s : HState) :
    Except String HState :=
  match env with
  | none => Except.ok { s with prolog := true }
  | some m => Except.error ("Prolog initialization failed: " ++ m)

/-- NODE 4, `node_execute_heuristic_analysis`: when no Prolog instance is
available, append a deduplicated error and return normally; otherwise run
the queries.  `env = some m` is the outcome in which the query layer throws
outside the per-metric guards: the node then appends the message **and
re-raises a `RuntimeError`** escaping the node. -/
def node_execute_heuristic_analysis (env : Option String) (s : HState) :
    Except String HState :=
  if s.prolog = false then
    Except.ok
      { s with errors := appendDedup s.errors ("Prolog instance not available") }
  else
    match env with
    | none => Except.ok { s with heuristic := some (run_pattern_analysis s.prolog_facts) }
    | some m => Except.error ("Heuristic analysis failed: " ++ m)

/-- NODE 5, `node_save`: everything runs inside one `try`; a missing
`run_id` raises a `RuntimeError` **inside that `try`**, which the node's
own `except` catches, appending `"Save failed: ..."` to the error list and
returning the state normally.  `writeEnv = some m` is a failing file write,
handled by the same `except`. -/
def node_save (writeEnv : Option String) (s : HState) : HState :=
  if truthy ((s.metadata.getD {}).run_id) = false then
    { s with errors := appendDedup s.errors heuristicSaveMissingMsg }
  else
    match writeEnv with
    | some m => { s with errors := appendDedup s.errors ("Save failed: " ++ m) }
    | none => s

/-- The compiled heuristic stage graph: the five nodes in a straight line;
a `raise` escaping a node aborts the remaining nodes (`Except` bind). -/
def runStage (prologEnv execEnv writeEnv : Option String) (s : HState) :
    Except String HState := do
  let s := node_load s
  let s := node_generate_prolog_facts s
  let s ← node_initialize_prolog prologEnv s
  let s ← node_execute_heuristic_analysis execEnv s
  return node_save writeEnv s

end Heuristic

-- ================================
-- Causality analyzer stage (causality_risk_analyzer_agent.py)
-- ================================

namespace Causality

/-- The shape of one value of the analysis dict as seen by the causality
stage's validation: a dict with a `"risks"` list, a dict whose `"risks"`
is not a list, a dict without `"risks"`, or a non-dict value. -/
inductive CEntry where
  | risksList (risks : List RiskRecord)
  | risksNonList
  | noRisks
  | nonDict
  deriving DecidableEq, Repr

/-- `CausalAnalysisState`: the state dict of the causality stage. -/
structure CState where
  metadata : Metadata := {}
  analysis : Option (List (String × CEntry)) := none
  errors : List String := []
  deriving Repr

/-- NODE 1, `node_load`: reset errors; when no analysis payload is present,
append a deduplicated error and return. -/
def node_load (s : CState) : CState :=
  let s := { s with errors := [] }
  if s.analysis = none then
    { s with errors := appendDedup s.errors ("No analysis data present in initial state") }
  else s

/-- The `ValueError` message raised by the validation loop on the first
malformed entry, if any: `Domain {k} missing 'risks' list` when the value
is not a dict or lacks `"risks"`, `Domain {k} 'risks' must be a list` when
`"risks"` is not a list. -/
def firstValidationError : List (String × CEntry) → Option String
  | [] => none
  | (k, e) :: rest =>
      match e with
      | CEntry.nonDict =>
          some ("Domain " ++ k ++ " missing \x27risks\x27 list")
      | CEntry.noRisks =>
          some ("Domain " ++ k ++ " missing \x27risks\x27 list")
      | CEntry.risksNonList =>
          some ("Domain " ++ k ++ " \x27risks\x27 must be a list")
      | CEntry.risksList _ => firstValidationError rest

/-- NODE 2, `node_validate`: a missing analysis appends a deduplicated
error; a malformed entry raises a `ValueError` caught by the node, whose
message is appended **without a deduplication check**
(`state.setdefault("errors", []).append(str(e))`). -/
def node_validate (s : CState) : CState :=
  match s.analysis with
  | none =>
      { s with errors := appendDedup s.errors ("No analysis data present to validate") }
  | some analysis =>
      match firstValidationError analysis with
      | none => s
      | some msg => { s with errors := s.errors ++ [msg] }

/-- NODE 3, `node_analyze`: invoke the structured-generation service and
convert its flat output to the nested form.  `llm` is the external
service's outcome; on failure the exception message is appended **without
a deduplication check** and the node returns normally. -/
def node_analyze (llm : Except String (List (String × CEntry))) (s : CState) :
    CState :=
  match llm with
  | Except.ok parsed => { s with analysis := some parsed }
  | Except.error e => { s with errors := s.errors ++ [e] }

/-- NODE 4, `node_save`: everything inside one `try`; a missing `run_id`
raises a `RuntimeError` caught by the node's own `except`, which first
appends `str(e)` unconditionally and then re-appends it behind a (now
vacuous) membership check, returning the state normally.
`writeEnv = some m` is a failing file write, handled the same way. -/
def node_save (writeEnv : Option String) (s : CState) : CState :=
  let recordFailure (msg : String) : CState :=
    let errs := s.errors ++ [msg]
    { s with errors := appendDedup errs msg }
  if truthy s.metadata.run_id = false then
    recordFailure causalitySaveMissingMsg
  else
    match writeEnv with
    | some m => recordFailure m
    | none => s

/-- The compiled causality stage graph: Load → Validate → Analyze → Save.
Every node returns normally, so the stage always completes. -/
def runStage (llm : Except String (List (String × CEntry)))
    (writeEnv : Option String) (s : CState) : CState :=
  node_save writeEnv (node_analyze llm (node_validate (node_load s)))

end Causality

-- ================================
-- Domain analyzer stage (domain_risk_analyzer_agent.py)
-- ================================

namespace Domain

/-- The questionnaire input document: `metadata = none` models an absent
(or null) `"metadata"` key, `hasResponses` the presence of `"responses"`.
The response contents themselves only feed the external service. -/
structure InputDoc where
  metadata : Option Metadata := none
  hasResponses : Bool := true
  deriving DecidableEq, Repr

/-- `DomainAnalysisState`: the state dict of the domain stage.
`questionnaire = none` models an absent-or-empty (falsy) questionnaire. -/
structure DState where
  metadata : Metadata := {}
  questionnaire : Option InputDoc := none
  analysis : Option Analysis := none
  errors : List String := []
  deriving Repr

/-- NODE 1, `node_load`: read the questionnaire file (`file = none` is a
missing or malformed file, recorded as a deduplicated error); on success
ensure a run identifier: `meta.get("run_id") or uuid.uuid4().hex`, where
`mint` stands for the freshly generated uuid hex. -/
def node_load (file : Option InputDoc) (mint : String) (s : DState) : DState :=
  match file with
  | none =>
      { s with errors := appendDedup s.errors ("load_questionnaire failed") }
  | some doc =>
      let meta := doc.metadata.getD {}
      let runId := pyOr meta.run_id mint
      { s with questionnaire := some doc,
               metadata := { s.metadata with run_id := some runId } }

/-- NODE 2, `node_validate`: require a non-empty questionnaire with
`"metadata"` and `"responses"` keys (deduplicated error otherwise), then
replace the state metadata by the questionnaire's, restoring the existing
run identifier when the questionnaire's metadata lacks a truthy one. -/
def node_validate (s : DState) : DState :=
  match s.questionnaire with
  | none => { s with errors := appendDedup s.errors ("Missing questionnaire") }
  | some doc =>
      match doc.metadata with
      | none => { s with errors := appendDedup s.errors ("Missing field: metadata") }
      | some docMeta =>
          if doc.hasResponses = false then
            { s with errors := appendDedup s.errors ("Missing field: responses") }
          else
            let existingRun := s.metadata.run_id
            let newMeta :=
              if truthy existingRun ∧ truthy docMeta.run_id = false then
                { docMeta with run_id := existingRun }
              else docMeta
            { s with metadata := newMeta }

/-- NODE 3, `node_analyze`: invoke the structured-generation service on the
questionnaire; on any failure (invocation or schema validation) append a
deduplicated error; the state metadata is never touched. -/
def node_analyze (llm : Except String Analysis) (s : DState) : DState :=
  match s.questionnaire with
  | none => { s with errors := appendDedup s.errors ("analyze_responses: no_questionnaire") }
  | some _ =>
      match llm with
      | Except.ok validated => { s with analysis := some validated }
      | Except.error e => { s with errors := appendDedup s.errors e }

/-- NODE 4, `node_save`: `_save_output` raises a `RuntimeError` on a
missing `run_id`; the node's own `except` catches it and appends the
message as a deduplicated error, returning the state normally.
`writeEnv = some m` is a failing file write, handled the same way. -/
def node_save (writeEnv : Option String) (s : DState) : DState :=
  if truthy s.metadata.run_id = false then
    { s with errors := appendDedup s.errors domainSaveMissingMsg }
  else
    match writeEnv with
    | some m => { s with errors := appendDedup s.errors m }
    | none => s

/-- The compiled domain stage graph: load_file → validate → analyze → save.
Every node returns normally. -/
def runStage (file : Option InputDoc) (mint : String)
    (llm : Except String Analysis) (writeEnv : Option String)
    (s : DState) : DState :=
  node_save writeEnv (node_analyze llm (node_validate (node_load file mint s)))

end Domain

-- ================================
-- Orchestrator (orchestrator.py)
-- ================================

namespace Orch

/-- `OrchestratorState`: the orchestrator's state dict; a stage slot is
`none` until its step stores the stage's final context. -/
structure OrchState where
  domain_state : Domain.DState := {}
  causality_state : Option Causality.CState := none
  heuristic_state : Option Heuristic.HState := none
  deriving Repr

/-- Rendering of a non-empty error list into the `Exception` message
raised by a step (`f"... failed: {result['errors']}"`). -/
def renderErrors (errs : List String) : String :=
  String.intercalate ("; ") errs

/-- `domain_step`: invoke the domain stage graph on the seeded domain
state; raise to the caller iff the final context's error list is
non-empty, otherwise store the result. -/
def domain_step (runDomain : Domain.DState → Domain.DState) (s : OrchState) :
    Except String OrchState :=
  let result := runDomain s.domain_state
  if result.errors = [] then Except.ok { s with domain_state := result }
  else Except.error ("Domain analysis failed: " ++ renderErrors result.errors)

/-- The causality seed built by `causality_step` from the domain result:
metadata and analysis of the domain stage's final context, fresh empty
error list.  The domain stage's analysis (a dict of `{"risks": [...]}`
values) enters the causality state as `risksList` entries. -/
def causalitySeed (d : Domain.DState) : Causality.CState :=
  { metadata := d.metadata,
    analysis := (d.analysis.getD []).map
      (fun kc => (kc.1, Causality.CEntry.risksList (kc.2.risks.getD []))) |> some,
    errors := [] }

/-- `causality_step`: seed from the stored domain state, invoke the
causality stage graph, raise iff the final error list is non-empty. -/
def causality_step (runCausality : Causality.CState → Causality.CState)
    (s : OrchState) : Except String OrchState :=
  let result := runCausality (causalitySeed s.domain_state)
  if result.errors = [] then Except.ok { s with causality_state := some result }
  else Except.error ("Causality analysis failed: " ++ renderErrors result.errors)

/-- Mediation of the causality analysis values into the heuristic stage's
view of the payload.  In an orchestrated run the heuristic stage only
executes on an error-free causality result, whose analysis is the
converted service output and hence consists of `risksList` entries; the
remaining branches are unreachable there. -/
def entryToContent : Causality.CEntry → Content
  | Causality.CEntry.risksList rs => { risks := some rs }
  | _ => { risks := none }

/-- The heuristic seed built by `heuristic_step` from the causality
result: its metadata and analysis, empty heuristic slot, empty facts, no
Prolog instance, fresh empty error list. -/
def heuristicSeed (c : Causality.CState) : Heuristic.HState :=
  { metadata := some c.metadata,
    analysis := some ((c.analysis.getD []).map (fun kc => (kc.1, entryToContent kc.2))),
    heuristic := none,
    prolog_facts := [],
    prolog := false,
    errors := [] }

/-- `heuristic_step`: seed from the stored causality state, invoke the
heuristic stage graph (which may itself raise), raise iff the stage raised
or the final error list is non-empty. -/
def heuristic_step (runHeuristic : Heuristic.HState → Except String Heuristic.HState)
    (s : OrchState) : Except String OrchState :=
  match s.causality_state with
  | none => Except.error ("KeyError: causality_state")
  | some c =>
      match runHeuristic (heuristicSeed c) with
      | Except.error e => Except.error e
      | Except.ok result =>
          if result.errors = [] then
            Except.ok { s with heuristic_state := some result }
          else
            Except.error ("Heuristic analysis failed: " ++ renderErrors result.errors)

/-- The metadata of the report seed built by `report_step` from the
heuristic result (`state["heuristic_state"].get("metadata", {})`). -/
def reportSeedMetadata (s : OrchState) : Metadata :=
  match s.heuristic_state with
  | some h => h.metadata.getD {}
  | none => {}

/-- The orchestrator graph: domain → causality → heuristic → report,
each step short-circuiting the rest of the run when it raises.  The report
stage is abstracted as its step function.  -/
def run_orchestrator (runDomain : Domain.DState → Domain.DState)
    (runCausality : Causality.CState → Causality.CState)
    (runHeuristic : Heuristic.HState → Except String Heuristic.HState)
    (report_step : OrchState → Except String OrchState)
    (s : OrchState) : Except String OrchState := do
  let s ← domain_step runDomain s
  let s ← causality_step runCausality s
  let s ← heuristic_step runHeuristic s
  report_step s

end Orch

-- ================================
-- Supporting lemmas: fact extraction
-- ================================

/-- The facts contributed by a single analysis item, given the seen-sets
in force when the loop reaches it. -/
def itemBlock (dseen sseen : List String) (it : String × Content) : List Fact :=
  match splitDot it.1 with
  | [d, s] =>
      (if dseen.contains d then []
       else [Fact.domainFact d (escapePrologString (extractDomainName d))]) ++
      ((if sseen.contains (d ++ "." ++ s) then []
        else [Fact.subdomainFact d s (escapePrologString (extractSubdomainName d s))]) ++
       riskBlock d s 1 (it.2.risks.getD []))
  | _ => []

lemma processItem_facts (acc : GenAcc) (it : String × Content) :
    (processItem acc it).facts =
      acc.facts ++ itemBlock acc.domainsSeen acc.subdomainsSeen it := by
  rcases it with ⟨k, c⟩
  unfold processItem itemBlock
  rcases h : splitDot k with _ | ⟨d, _ | ⟨s, _ | _⟩⟩
  · simp [h]
  · simp [h]
  · simp only [h]
    split_ifs <;> simp
  · simp [h]

lemma processItem_bad (acc : GenAcc) (k : String) (c : Content)
    (h : goodKey k = false) : processItem acc (k, c) = acc := by
  unfold processItem
  unfold goodKey at h
  rcases hs : splitDot k with _ | ⟨d, _ | ⟨s, _ | _⟩⟩
  · simp [hs]
  · simp [hs]
  · rw [hs] at h; simp at h
  · simp [hs]

lemma foldl_facts_append (xs : Analysis) (acc : GenAcc) :
    ∃ t, (xs.foldl processItem acc).facts = acc.facts ++ t := by
  induction xs generalizing acc with
  | nil => exact ⟨[], by simp⟩
  | cons x rest ih =>
      obtain ⟨t, ht⟩ := ih (processItem acc x)
      refine ⟨itemBlock acc.domainsSeen acc.subdomainsSeen x ++ t, ?_⟩
      simp [ht, processItem_facts]

lemma mem_riskBlock (d s : String) (risks : List RiskRecord) :
    ∀ (j i : Nat) (hi : i < risks.length),
      ∀ f ∈ riskFacts d s (j + i) (risks.get ⟨i, hi⟩), f ∈ riskBlock d s j risks := by
  induction risks with
  | nil => intro j i hi; simp at hi
  | cons r rest ih =>
      intro j i hi f hf
      cases i with
      | zero =>
          simp only [Nat.add_zero] at hf
          simp only [riskBlock, List.mem_append]
          exact Or.inl hf
      | succ i =>
          simp only [riskBlock, List.mem_append]
          right
          have : (j + 1) + i = j + (i + 1) := by omega
          exact ih (j + 1) i (by simpa using hi) f (by simpa [this] using hf)

lemma mem_itemBlock_of_mem_riskBlock (dseen sseen : List String)
    (k d s : String) (c : Content) (hsplit : splitDot k = [d, s]) :
    ∀ f ∈ riskBlock d s 1 (c.risks.getD []), f ∈ itemBlock dseen sseen (k, c) := by
  intro f hf
  unfold itemBlock
  simp only [hsplit]
  simp [hf]

lemma mem_foldl_facts (xs : Analysis) (k : String) (c : Content)
    (hmem : (k, c) ∈ xs) (d s : String) (hsplit : splitDot k = [d, s])
    (f : Fact) (hf : f ∈ riskBlock d s 1 (c.risks.getD [])) :
    ∀ acc, f ∈ (xs.foldl processItem acc).facts := by
  induction xs with
  | nil => simp at hmem
  | cons x rest ih =>
      intro acc
      rcases List.mem_cons.mp hmem with hx | hrest
      · obtain ⟨t, ht⟩ := foldl_facts_append rest (processItem acc x)
        simp only [List.foldl_cons, ht, List.mem_append]
        left
        rw [← hx, processItem_facts]
        exact List.mem_append.mpr
          (Or.inr (mem_itemBlock_of_mem_riskBlock _ _ k d s c hsplit f hf))
      · simpa using ih hrest (processItem acc x)

lemma mem_genFacts (a : Analysis) (k : String) (c : Content)
    (hmem : (k, c) ∈ a) (d s : String) (hsplit : splitDot k = [d, s])
    (f : Fact) (hf : f ∈ riskBlock d s 1 (c.risks.getD [])) :
    f ∈ genFacts a :=
  mem_foldl_facts a k c hmem d s hsplit f hf ⟨[], [], []⟩

lemma riskFacts_mem_genFacts (a : Analysis) (k : String) (c : Content)
    (hmem : (k, c) ∈ a) (d s : String) (hsplit : splitDot k = [d, s])
    (i : Nat) (hi : i < (c.risks.getD []).length) :
    ∀ f ∈ riskFacts d s (i + 1) ((c.risks.getD []).get ⟨i, hi⟩), f ∈ genFacts a := by
  intro f hf
  refine mem_genFacts a k c hmem d s hsplit f ?_
  have h1 : 1 + i = i + 1 := Nat.add_comm 1 i
  exact mem_riskBlock d s (c.risks.getD []) 1 i hi f (by simpa [h1] using hf)

-- Count lemmas

lemma countRiskFacts_append (xs ys : List Fact) :
    countRiskFacts (xs ++ ys) = countRiskFacts xs + countRiskFacts ys :=
  List.countP_append _ _ _

lemma countEntityFacts_append (xs ys : List Fact) :
    countEntityFacts (xs ++ ys) = countEntityFacts xs + countEntityFacts ys :=
  List.countP_append _ _ _

lemma countIntentFacts_append (xs ys : List Fact) :
    countIntentFacts (xs ++ ys) = countIntentFacts xs + countIntentFacts ys :=
  List.countP_append _ _ _

lemma countTimingFacts_append (xs ys : List Fact) :
    countTimingFacts (xs ++ ys) = countTimingFacts xs + countTimingFacts ys :=
  List.countP_append _ _ _

lemma counts_riskFacts (d s : String) (id : Nat) (r : RiskRecord) :
    countRiskFacts (riskFacts d s id r) = 1 ∧
    countEntityFacts (riskFacts d s id r) = 1 ∧
    countIntentFacts (riskFacts d s id r) = 1 ∧
    countTimingFacts (riskFacts d s id r) = 1 := by
  simp [riskFacts, countRiskFacts, countEntityFacts, countIntentFacts,
    countTimingFacts, List.countP_cons]

lemma counts_riskBlock (d s : String) (risks : List RiskRecord) :
    ∀ j, countRiskFacts (riskBlock d s j risks) = risks.length ∧
      countEntityFacts (riskBlock d s j risks) = risks.length ∧
      countIntentFacts (riskBlock d s j risks) = risks.length ∧
      countTimingFacts (riskBlock d s j risks) = risks.length := by
  induction risks with
  | nil => intro j; simp [riskBlock, countRiskFacts, countEntityFacts,
      countIntentFacts, countTimingFacts]
  | cons r rest ih =>
      intro j
      obtain ⟨h1, h2, h3, h4⟩ := counts_riskFacts d s j r
      obtain ⟨g1, g2, g3, g4⟩ := ih (j + 1)
      refine ⟨?_, ?_, ?_, ?_⟩ <;>
        simp [riskBlock, countRiskFacts_append, countEntityFacts_append,
          countIntentFacts_append, countTimingFacts_append, h1, h2, h3, h4,
          g1, g2, g3, g4, Nat.add_comm]

lemma counts_itemBlock (dseen sseen : List String) (it : String × Content) :
    countRiskFacts (itemBlock dseen sseen it) = itemRiskCount it ∧
    countEntityFacts (itemBlock dseen sseen it) = itemRiskCount it ∧
    countIntentFacts (itemBlock dseen sseen it) = itemRiskCount it ∧
    countTimingFacts (itemBlock dseen sseen it) = itemRiskCount it := by
  rcases it with ⟨k, c⟩
  unfold itemBlock itemRiskCount goodKey
  rcases hs : splitDot k with _ | ⟨d, _ | ⟨s, _ | _⟩⟩
  · simp [hs, countRiskFacts, countEntityFacts, countIntentFacts, countTimingFacts]
  · simp [hs, countRiskFacts, countEntityFacts, countIntentFacts, countTimingFacts]
  · obtain ⟨h1, h2, h3, h4⟩ := counts_riskBlock d s (c.risks.getD []) 1
    simp only [hs]
    split_ifs <;>
      simp_all [countRiskFacts, countEntityFacts, countIntentFacts,
        countTimingFacts, List.countP_append, List.countP_cons]
  · simp [hs, countRiskFacts, countEntityFacts, countIntentFacts, countTimingFacts]

lemma counts_foldl (xs : Analysis) :
    ∀ acc : GenAcc,
      countRiskFacts (xs.foldl processItem acc).facts =
        countRiskFacts acc.facts + (xs.map itemRiskCount).sum ∧
      countEntityFacts (xs.foldl processItem acc).facts =
        countEntityFacts acc.facts + (xs.map itemRiskCount).sum ∧
      countIntentFacts (xs.foldl processItem acc).facts =
        countIntentFacts acc.facts + (xs.map itemRiskCount).sum ∧
      countTimingFacts (xs.foldl processItem acc).facts =
        countTimingFacts acc.facts + (xs.map itemRiskCount).sum := by
  induction xs with
  | nil => intro acc; simp
  | cons x rest ih =>
      intro acc
      obtain ⟨h1, h2, h3, h4⟩ := ih (processItem acc x)
      obtain ⟨g1, g2, g3, g4⟩ := counts_itemBlock acc.domainsSeen acc.subdomainsSeen x
      refine ⟨?_, ?_, ?_, ?_⟩ <;>
        simp [h1, h2, h3, h4, processItem_facts, countRiskFacts_append,
          countEntityFacts_append, countIntentFacts_append,
          countTimingFacts_append, g1, g2, g3, g4] <;> omega

lemma counts_genFacts (a : Analysis) :
    countRiskFacts (genFacts a) = (a.map itemRiskCount).sum ∧
    countEntityFacts (genFacts a) = (a.map itemRiskCount).sum ∧
    countIntentFacts (genFacts a) = (a.map itemRiskCount).sum ∧
    countTimingFacts (genFacts a) = (a.map itemRiskCount).sum := by
  have h := counts_foldl a ⟨[], [], []⟩
  simpa [genFacts, countRiskFacts, countEntityFacts, countIntentFacts,
    countTimingFacts] using h

lemma foldl_filter_goodKey (xs : Analysis) :
    ∀ acc : GenAcc,
      xs.foldl processItem acc =
        (xs.filter (fun kc => goodKey kc.1)).foldl processItem acc := by
  induction xs with
  | nil => intro acc; simp
  | cons x rest ih =>
      intro acc
      rcases x with ⟨k, c⟩
      by_cases h : goodKey k
      · simp [List.filter_cons, h, ih]
      · simp only [List.foldl_cons,
          processItem_bad acc k c (Bool.not_eq_true _ ▸ by simpa using h)]
        simp [List.filter_cons, h, ih]

lemma genFacts_filter (a : Analysis) :
    genFacts a = genFacts (a.filter (fun kc => goodKey kc.1)) := by
  unfold genFacts
  rw [foldl_filter_goodKey]

-- ================================
-- Supporting lemmas: error lists, run ids, counts
-- ================================

lemma truthy_pyOr (o : Option String) (u : String) (h : u ≠ "") :
    truthy (some (pyOr o u)) = true := by
  rcases o with _ | v
  · simpa [pyOr, truthy]
  · by_cases hv : v = ""
    · simp [pyOr, truthy, hv, h]
    · simp [pyOr, truthy, hv]

lemma pyOr_of_truthy (o : Option String) (u : String) (h : truthy o = true) :
    some (pyOr o u) = o := by
  rcases o with _ | v
  · simp [truthy] at h
  · simp only [truthy, ne_eq, decide_eq_true_eq] at h
    simp [pyOr, h]

lemma countP_le_of_imp (l : List Fact) (p q : Fact → Bool)
    (h : ∀ f, p f = true → q f = true) : l.countP p ≤ l.countP q := by
  induction l with
  | nil => simp
  | cons x rest ih =>
      by_cases hx : p x = true
      · simp [List.countP_cons, hx, h x hx]; omega
      · simp only [List.countP_cons]
        split_ifs <;> simp_all <;> omega

lemma risks_by_severity_le (fb : List Fact) (sev : String) :
    risks_by_severity fb sev ≤ countRiskFacts fb := by
  refine countP_le_of_imp fb _ _ (fun f => ?_)
  rcases f <;> simp

lemma risks_by_entity_le (fb : List Fact) (ent : String) :
    risks_by_entity fb ent ≤ countEntityFacts fb := by
  refine countP_le_of_imp fb _ _ (fun f => ?_)
  rcases f <;> simp

lemma risks_by_intent_le (fb : List Fact) (int : String) :
    risks_by_intent fb int ≤ countIntentFacts fb := by
  refine countP_le_of_imp fb _ _ (fun f => ?_)
  rcases f <;> simp

lemma risks_by_timing_le (fb : List Fact) (tim : String) :
    risks_by_timing fb tim ≤ countTimingFacts fb := by
  refine countP_le_of_imp fb _ _ (fun f => ?_)
  rcases f <;> simp

/-- On a generated fact base with no risk facts there are no causality
facts either: every count of the fact-extraction output is the same sum. -/
lemma genFacts_counts_zero (a : Analysis) (h : countRiskFacts (genFacts a) = 0) :
    countEntityFacts (genFacts a) = 0 ∧
    countIntentFacts (genFacts a) = 0 ∧
    countTimingFacts (genFacts a) = 0 := by
  obtain ⟨h1, h2, h3, h4⟩ := counts_genFacts a
  omega

lemma sum_itemRiskCount_of_good (a : Analysis)
    (hgood : ∀ kc ∈ a, goodKey kc.1 = true) :
    (a.map itemRiskCount).sum
      = (a.map (fun kc => (kc.2.risks.getD []).length)).sum := by
  induction a with
  | nil => simp
  | cons x rest ih =>
      have hx := hgood x (List.mem_cons_self x rest)
      have hrest := ih (fun kc hkc => hgood kc (List.mem_cons_of_mem x hkc))
      simp [itemRiskCount, hx, hrest]

lemma domains_with_high_nil (fb : List Fact) (h : countRiskFacts fb = 0) :
    domains_with_high fb = [] := by
  have hfm : fb.filterMap (fun f => match f with
      | Fact.riskFact d _ _ _ sev => if sev = "high" then some d else none
      | _ => none) = [] := by
    induction fb with
    | nil => simp
    | cons f rest ih =>
        rcases f <;> simp_all [countRiskFacts, List.countP_cons]
  simp [domains_with_high, hfm]

-- Metadata-preservation lemmas for the run-id claims

lemma causality_node_load_meta (s : Causality.CState) :
    (Causality.node_load s).metadata = s.metadata := by
  by_cases ha : s.analysis = none <;> simp [Causality.node_load, ha]

lemma causality_node_validate_meta (s : Causality.CState) :
    (Causality.node_validate s).metadata = s.metadata := by
  rcases ha : s.analysis with _ | a
  · simp [Causality.node_validate, ha]
  · rcases hv : Causality.firstValidationError a with _ | msg <;>
      simp [Causality.node_validate, ha, hv]

lemma causality_node_analyze_meta
    (llm : Except String (List (String × Causality.CEntry)))
    (s : Causality.CState) :
    (Causality.node_analyze llm s).metadata = s.metadata := by
  rcases llm with e | v <;> simp [Causality.node_analyze]

lemma causality_node_save_meta (env : Option String) (s : Causality.CState) :
    (Causality.node_save env s).metadata = s.metadata := by
  by_cases ht : truthy s.metadata.run_id = false
  · simp [Causality.node_save, ht]
  · rcases env with _ | m <;> simp [Causality.node_save, ht]

lemma causality_runStage_meta
    (llm : Except String (List (String × Causality.CEntry)))
    (env : Option String) (s : Causality.CState) :
    (Causality.runStage llm env s).metadata = s.metadata := by
  unfold Causality.runStage
  rw [causality_node_save_meta, causality_node_analyze_meta,
    causality_node_validate_meta, causality_node_load_meta]

lemma heuristic_node_load_meta (s : Heuristic.HState) (m : Metadata)
    (hm : s.metadata = some m) : (Heuristic.node_load s).metadata = some m := by
  by_cases ha : s.analysis = none <;> simp [Heuristic.node_load, ha, hm]

lemma heuristic_node_save_meta (env : Option String) (s : Heuristic.HState) :
    (Heuristic.node_save env s).metadata = s.metadata := by
  by_cases ht : truthy ((s.metadata.getD {}).run_id) = false
  · simp [Heuristic.node_save, ht]
  · rcases env with _ | m <;> simp [Heuristic.node_save, ht]

lemma heuristic_runStage_meta (pe ee we : Option String)
    (s r : Heuristic.HState) (m : Metadata) (hm : s.metadata = some m)
    (hok : Heuristic.runStage pe ee we s = Except.ok r) :
    r.metadata = some m := by
  rcases pe with _ | pm
  · rcases ee with _ | em
    · simp [Heuristic.runStage, Heuristic.node_initialize_prolog,
        Heuristic.node_execute_heuristic_analysis, Bind.bind, Except.bind,
        pure, Except.pure] at hok
      rw [← hok, heuristic_node_save_meta]
      exact heuristic_node_load_meta s m hm
    · simp [Heuristic.runStage, Heuristic.node_initialize_prolog,
        Heuristic.node_execute_heuristic_analysis, Bind.bind, Except.bind,
        pure, Except.pure] at hok
  · simp [Heuristic.runStage, Heuristic.node_initialize_prolog,
      Bind.bind, Except.bind] at hok

lemma domain_node_analyze_meta (llm : Except String Analysis)
    (s : Domain.DState) : (Domain.node_analyze llm s).metadata = s.metadata := by
  rcases hq : s.questionnaire with _ | doc
  · simp [Domain.node_analyze, hq]
  · rcases llm with e | v <;> simp [Domain.node_analyze, hq]

lemma domain_node_save_meta (env : Option String) (s : Domain.DState) :
    (Domain.node_save env s).metadata = s.metadata := by
  by_cases ht : truthy s.metadata.run_id = false
  · simp [Domain.node_save, ht]
  · rcases env with _ | m <;> simp [Domain.node_save, ht]

lemma domain_node_validate_run_id (s : Domain.DState)
    (doc : Domain.InputDoc) (u : String) (hu : u ≠ "")
    (hq : s.questionnaire = some doc)
    (hrid : s.metadata.run_id = some (pyOr ((doc.metadata.getD {}).run_id) u)) :
    (Domain.node_validate s).metadata.run_id
      = some (pyOr ((doc.metadata.getD {}).run_id) u) := by
  rcases hm : doc.metadata with _ | docMeta
  · simp [Domain.node_validate, hq, hm, hrid]
  · by_cases hresp : doc.hasResponses = false
    · simp [Domain.node_validate, hq, hm, hresp, hrid]
    · by_cases htr : truthy docMeta.run_id = false
      · simp [Domain.node_validate, hq, hm, hresp, htr, hrid,
          truthy_pyOr docMeta.run_id u hu]
      · have htr' : truthy docMeta.run_id = true := by
          revert htr; cases truthy docMeta.run_id <;> simp
        have : some (pyOr docMeta.run_id u) = docMeta.run_id :=
          pyOr_of_truthy docMeta.run_id u htr'
        simp [Domain.node_validate, hq, hm, hresp, htr', hm, this]

lemma domain_runStage_run_id (doc : Domain.InputDoc) (u : String)
    (llm : Except String Analysis) (env : Option String) (hu : u ≠ "") :
    (Domain.runStage (some doc) u llm env {}).metadata.run_id
      = some (pyOr ((doc.metadata.getD {}).run_id) u) := by
  have h1 : Domain.node_load (some doc) u {}
      = { metadata := { run_id := some (pyOr ((doc.metadata.getD {}).run_id) u) },
          questionnaire := some doc } := rfl
  unfold Domain.runStage
  rw [domain_node_save_meta, domain_node_analyze_meta, h1]
  exact domain_node_validate_run_id _ doc u hu rfl rfl

-- ================================
-- Claim theorems
-- ================================

/-- Spec-side rendering of the §4.1 fact-extraction contract (claim C5):
one risk fact per risk (count = sum of risk-list lengths), exactly one
causality fact of each kind per risk, and for each risk the four facts
keyed by its (domain, subdomain, 1-based local ordinal) triple. -/
def FactExtractionSpec (a : Analysis) : Prop :=
  countRiskFacts (genFacts a) = (a.map (fun kc => (kc.2.risks.getD []).length)).sum
  ∧ countEntityFacts (genFacts a) = countRiskFacts (genFacts a)
  ∧ countIntentFacts (genFacts a) = countRiskFacts (genFacts a)
  ∧ countTimingFacts (genFacts a) = countRiskFacts (genFacts a)
  ∧ ∀ k c, (k, c) ∈ a → ∀ d s, splitDot k = [d, s] →
      ∀ i (hi : i < (c.risks.getD []).length),
        Fact.riskFact d s (i + 1)
            (escapePrologString (((c.risks.getD []).get ⟨i, hi⟩).title.getD ("")))
            (severityOf ((c.risks.getD []).get ⟨i, hi⟩)) ∈ genFacts a
        ∧ Fact.causalityEntity d s (i + 1)
            (causalityValues ((c.risks.getD []).get ⟨i, hi⟩)).1 ∈ genFacts a
        ∧ Fact.causalityIntent d s (i + 1)
            (causalityValues ((c.risks.getD []).get ⟨i, hi⟩)).2.1 ∈ genFacts a
        ∧ Fact.causalityTiming d s (i + 1)
            (causalityValues ((c.risks.getD []).get ⟨i, hi⟩)).2.2 ∈ genFacts a

/-- C5: for every inventory whose subdomain keys all split into exactly
two parts, the fact extraction emits exactly one risk fact per risk (the
risk-fact count equals the sum of the risk-list lengths), assigns each
risk a 1-based ordinal local to its subdomain, and emits exactly three
causality facts (entity, intent, timing) keyed by the same
(domain, subdomain, ordinal) triple. -/
theorem C5_fact_extraction_complete (a : Analysis)
    (hgood : ∀ kc ∈ a, goodKey kc.1 = true) : FactExtractionSpec a := by
  obtain ⟨h1, h2, h3, h4⟩ := counts_genFacts a
  have hsum := sum_itemRiskCount_of_good a hgood
  refine ⟨by rw [h1, hsum], by rw [h2, h1], by rw [h3, h1], by rw [h4, h1], ?_⟩
  intro k c hmem d s hsplit i hi
  have hm := riskFacts_mem_genFacts a k c hmem d s hsplit i hi
  refine ⟨hm _ ?_, hm _ ?_, hm _ ?_, hm _ ?_⟩ <;> simp [riskFacts]

/-- Concrete inventory for the C5 witness. -/
def c5Analysis : Analysis :=
  [("2.1", { risks := some [{ title := some ("r1"), severity := some ("high") }, {}] }),
   ("3.2", { risks := some [{}] })]

/-- Witness for C5 at a concrete two-key inventory. -/
theorem C5_witness :
    (∀ kc ∈ c5Analysis, goodKey kc.1 = true) ∧ FactExtractionSpec c5Analysis :=
  ⟨by decide, C5_fact_extraction_complete c5Analysis (by decide)⟩

/-- C6: for every inventory containing a subdomain key that does not split
into exactly two parts on the separator, the fact extraction step
completes without appending any error and the fact base equals that of the
inventory restricted to the keys that do split (so the malformed key
contributes zero facts and the valid keys are processed normally). -/
theorem C6_malformed_key_skipped (a : Analysis) (k : String) (c : Content)
    (s : Heuristic.HState)
    (hmem : (k, c) ∈ a) (hbad : goodKey k = false) (hs : s.analysis = some a) :
    (Heuristic.node_generate_prolog_facts s).errors = s.errors
    ∧ (Heuristic.node_generate_prolog_facts s).prolog_facts
        = genFacts (a.filter (fun kc => goodKey kc.1)) := by
  refine ⟨rfl, ?_⟩
  simp [Heuristic.node_generate_prolog_facts, hs, ← genFacts_filter]

/-- Concrete inventory for the C6 witness: the malformed key `"abc"`. -/
def c6Analysis : Analysis :=
  [("abc", { risks := some [{}, {}] }), ("2.1", { risks := some [{}] })]

/-- Concrete initial state for the C6 witness. -/
def c6State : Heuristic.HState := { analysis := some c6Analysis }

/-- Witness for C6 at an inventory containing the key `"abc"`. -/
theorem C6_witness :
    ("abc", ({ risks := some [{}, {}] } : Content)) ∈ c6Analysis
    ∧ goodKey ("abc") = false
    ∧ c6State.analysis = some c6Analysis
    ∧ ((Heuristic.node_generate_prolog_facts c6State).errors = c6State.errors
       ∧ (Heuristic.node_generate_prolog_facts c6State).prolog_facts
           = genFacts (c6Analysis.filter (fun kc => goodKey kc.1))) :=
  ⟨by decide, by decide, rfl,
    C6_malformed_key_skipped c6Analysis ("abc") { risks := some [{}, {}] } c6State
      (by decide) (by decide) rfl⟩

/-- C10: during fact extraction, a risk missing its severity field yields
a risk fact with severity `"medium"`, and a risk whose causality
entity/intent/timing values are absent both in the nested causality dict
and in the flat top-level keys yields causality facts with value
`"other"`; no error is recorded. -/
theorem C10_missing_field_defaults (a : Analysis) (k : String) (c : Content)
    (d s : String) (i : Nat) (hi : i < (c.risks.getD []).length)
    (r : RiskRecord) (hr : (c.risks.getD []).get ⟨i, hi⟩ = r)
    (hmem : (k, c) ∈ a) (hsplit : splitDot k = [d, s])
    (hsev : r.severity = none)
    (hnest : ∀ cd, r.causality = some cd →
      (cd.entity = none ∨ cd.entity = some none)
      ∧ (cd.intent = none ∨ cd.intent = some none)
      ∧ (cd.timing = none ∨ cd.timing = some none))
    (hflatE : r.flatEntity = none) (hflatI : r.flatIntent = none)
    (hflatT : r.flatTiming = none)
    (st : Heuristic.HState) (hst : st.analysis = some a) :
    severityOf r = "medium"
    ∧ causalityValues r = ("other", "other", "other")
    ∧ Fact.riskFact d s (i + 1) (escapePrologString (r.title.getD (""))) ("medium")
        ∈ genFacts a
    ∧ Fact.causalityEntity d s (i + 1) ("other") ∈ genFacts a
    ∧ Fact.causalityIntent d s (i + 1) ("other") ∈ genFacts a
    ∧ Fact.causalityTiming d s (i + 1) ("other") ∈ genFacts a
    ∧ (Heuristic.node_generate_prolog_facts st).errors = st.errors := by
  have hsevOf : severityOf r = "medium" := by simp [severityOf, hsev]
  have hcv : causalityValues r = ("other", "other", "other") := by
    unfold causalityValues
    rcases hc : r.causality with _ | cd
    · simp [hc, hflatE, hflatI, hflatT]
    · obtain ⟨he, hi', ht⟩ := hnest cd hc
      rcases he with he | he
      · simp [hc, he, hflatE, hflatI, hflatT]
      · rcases hi' with hi' | hi' <;> rcases ht with ht | ht <;>
          simp [hc, he, hi', ht]
  have hm := riskFacts_mem_genFacts a k c hmem d s hsplit i hi
  rw [hr] at hm
  refine ⟨hsevOf, hcv, hm _ ?_, hm _ ?_, hm _ ?_, hm _ ?_, rfl⟩ <;>
    simp [riskFacts, hsevOf, hcv]

/-- Concrete inventory for the C10 witness: a single risk with no
severity, no causality dict and no flat keys. -/
def c10Analysis : Analysis := [("4.3", { risks := some [{}] })]

/-- Concrete initial state for the C10 witness. -/
def c10State : Heuristic.HState := { analysis := some c10Analysis }

/-- Witness for C10 at a risk record with every optional field absent. -/
theorem C10_witness :
    ("4.3", ({ risks := some [{}] } : Content)) ∈ c10Analysis
    ∧ (severityOf {} = "medium"
       ∧ causalityValues {} = ("other", "other", "other")
       ∧ Fact.riskFact ("4") ("3") 1 (escapePrologString ((RiskRecord.title {}).getD ("")))
           "medium" ∈ genFacts c10Analysis
       ∧ Fact.causalityEntity ("4") ("3") 1 "other" ∈ genFacts c10Analysis
       ∧ Fact.causalityIntent ("4") ("3") 1 "other" ∈ genFacts c10Analysis
       ∧ Fact.causalityTiming ("4") ("3") 1 "other" ∈ genFacts c10Analysis
       ∧ (Heuristic.node_generate_prolog_facts c10State).errors = c10State.errors) :=
  ⟨by decide,
    C10_missing_field_defaults c10Analysis ("4.3") { risks := some [{}] } "4" "3" 0
      (by decide) {} rfl (by decide) (by decide) rfl
      (fun cd h => by cases h) rfl rfl rfl c10State rfl⟩

/-- C2 counterexample: on a run context whose metadata lacks a run
identifier, the heuristic stage's Persist state returns the context
normally with the defect recorded in its error list — the `RuntimeError`
it raises is caught by its own `except` block and does not propagate to
the caller as the claim states. -/
theorem C2_counterexample :
    Heuristic.node_save none { metadata := some {} }
      = { metadata := some {},
          errors :=
            ["Save failed: Missing run_id in state; run must start from domain analyzer"] } :=
  rfl

/-- C2 (amended): on a missing run identifier each stage's Persist state
raises internally but catches its own exception, records the failure
message in the (deduplicated) error list, and returns the context
normally with a non-empty error list; the defect becomes fatal only when
the Orchestrator raises on that non-empty list. -/
theorem C2_persist_records_missing_run_id (s : Heuristic.HState)
    (d : Domain.DState) (c : Causality.CState) (envH envD envC : Option String)
    (hs : truthy ((s.metadata.getD {}).run_id) = false)
    (hd : truthy d.metadata.run_id = false)
    (hc : truthy c.metadata.run_id = false) :
    Heuristic.node_save envH s
        = { s with errors := appendDedup s.errors heuristicSaveMissingMsg }
    ∧ Domain.node_save envD d
        = { d with errors := appendDedup d.errors domainSaveMissingMsg }
    ∧ Causality.node_save envC c
        = { c with errors := c.errors ++ [causalitySaveMissingMsg] }
    ∧ (Heuristic.node_save envH s).errors ≠ [] := by
  have hheu : Heuristic.node_save envH s
      = { s with errors := appendDedup s.errors heuristicSaveMissingMsg } := by
    simp [Heuristic.node_save, hs]
  refine ⟨hheu, ?_, ?_, ?_⟩
  · simp [Domain.node_save, hd]
  · simp [Causality.node_save, hc, appendDedup]
  · rw [hheu]
    show appendDedup s.errors heuristicSaveMissingMsg ≠ []
    unfold appendDedup
    split_ifs with hmem
    · exact fun hnil => by simp [hnil] at hmem
    · simp

/-- Concrete states for the C2 witness. -/
def c2HState : Heuristic.HState := { metadata := some {} }

/-- Concrete domain-stage state for the C2 witness. -/
def c2DState : Domain.DState := {}

/-- Concrete causality-stage state for the C2 witness. -/
def c2CState : Causality.CState := {}

/-- Witness for C2 (amended) at concrete run contexts without run ids. -/
theorem C2_witness :
    (truthy ((c2HState.metadata.getD {}).run_id) = false
     ∧ truthy c2DState.metadata.run_id = false
     ∧ truthy c2CState.metadata.run_id = false)
    ∧ (Heuristic.node_save none c2HState
        = { c2HState with errors := appendDedup c2HState.errors heuristicSaveMissingMsg }
       ∧ Domain.node_save none c2DState
        = { c2DState with errors := appendDedup c2DState.errors domainSaveMissingMsg }
       ∧ Causality.node_save none c2CState
        = { c2CState with errors := c2CState.errors ++ [causalitySaveMissingMsg] }
       ∧ (Heuristic.node_save none c2HState).errors ≠ []) :=
  ⟨⟨rfl, rfl, rfl⟩,
    C2_persist_records_missing_run_id c2HState c2DState c2CState none none none
      rfl rfl rfl⟩

/-- Two-decimal rounding of zero is zero. -/
lemma round2_zero : round2 0 = 0 := by
  unfold round2
  norm_num

/-- C3 counterexample: at the empty fact base (total risk count zero) the
ai_dominance alert is the record `{alert: false, value: 0}`: its value
field is the number 0, not null, because the guard
`(ai_count / total * 100) if total > 0 else 0` substitutes 0 and the
record is built unconditionally. -/
theorem C3_counterexample :
    total_risks [] = 0
    ∧ (runAlerts []).ai_dominance = some ⟨false, 0⟩
    ∧ (runAlerts []).ai_dominance ≠ none := by
  have hz : (runAlerts []).ai_dominance = some ⟨false, 0⟩ := by
    norm_num [runAlerts, total_risks, countRiskFacts, risks_by_entity,
      round2_zero]
  exact ⟨rfl, hz, by rw [hz]; exact Option.noConfusion⟩

/-- Spec-side rendering of the amended claim C3: on a generated fact base
with total risk count zero the Prolog-computed percentage and ratio
metrics are null, no metric throws or yields NaN or infinity, but the
percentage-based alerts are records with value 0 (not null), alert false —
except low_preventable_ratio, whose comparison `0 < 10` makes the alert
true. -/
def ZeroDenominatorOutcome (a : Analysis) : Prop :=
  runDistributionMetrics (genFacts a) = ⟨none, none, none⟩
  ∧ runAlerts (genFacts a) =
      { critical_risk_concentration := some ⟨false, 0⟩,
        ai_dominance := some ⟨false, 0⟩,
        intentional_threats := some ⟨false, 0⟩,
        operational_risks := some ⟨false, 0⟩,
        low_preventable_ratio := some ⟨true, 0⟩,
        medium_risk_accumulation := some ⟨false, 0⟩,
        human_error_dominance := some ⟨false, 0⟩,
        high_risk_fragmentation := some ⟨false, 0⟩ }

/-- C3 (amended): for every generated fact base with total risk count
zero, the Prolog percentage/ratio queries read through the per-metric
failure guards evaluate to null and nothing throws; the value fields of
the Python-computed percentage alerts however evaluate to 0 (with a false
alert flag, except the less-than threshold of low_preventable_ratio,
which fires). -/
theorem C3_amended_zero_denominator (a : Analysis)
    (h : total_risks (genFacts a) = 0) : ZeroDenominatorOutcome a := by
  set fb := genFacts a with hfb
  obtain ⟨hce, hci, hct⟩ := genFacts_counts_zero a h
  have hcr : countRiskFacts fb = 0 := h
  have hsev : ∀ sev, risks_by_severity fb sev = 0 := fun sev =>
    Nat.le_zero.mp (hcr ▸ risks_by_severity_le fb sev)
  have hent : ∀ e, risks_by_entity fb e = 0 := fun e =>
    Nat.le_zero.mp (hce ▸ risks_by_entity_le fb e)
  have hint : ∀ i, risks_by_intent fb i = 0 := fun i =>
    Nat.le_zero.mp (hci ▸ risks_by_intent_le fb i)
  have htim : ∀ t, risks_by_timing fb t = 0 := fun t =>
    Nat.le_zero.mp (hct ▸ risks_by_timing_le fb t)
  have hdom : domains_with_high fb = [] := domains_with_high_nil fb hcr
  constructor
  · simp [runDistributionMetrics, percentage_ai_predeployment,
      percentage_high_intentional, ai_human_ratio, h, hent]
  · have hph : percentage_high_severity fb = none := by
      simp [percentage_high_severity, h]
    simp only [runAlerts, h, hph, Option.getD_none, hsev, hent, hint, htim,
      hdom, List.length_nil, gt_iff_lt, lt_self_iff_false, if_false,
      Nat.cast_zero, round2_zero]
    norm_num

/-- Witness inventory for C3: a lone malformed key, yielding an empty
fact base. -/
def c3Analysis : Analysis := [("abc", { risks := some [{}] })]

/-- Witness for C3 (amended) at a concrete inventory with zero risks. -/
theorem C3_witness :
    total_risks (genFacts c3Analysis) = 0 ∧ ZeroDenominatorOutcome c3Analysis :=
  ⟨by decide, C3_amended_zero_denominator c3Analysis (by decide)⟩

/-- Spec-side rendering of the §4.2 alert table (claim C7): each alert is
a record of a boolean flag — the strict comparison of the underlying
(unrounded) metric against its fixed threshold — and the 2-decimal-rounded
value. -/
def AlertContract (fb : List Fact) : Prop :=
  let t := total_risks fb
  let highPct := (risks_by_severity fb ("high") : ℚ) / t * 100
  let aiPct := (risks_by_entity fb ("ai") : ℚ) / t * 100
  let postPct := (risks_by_timing fb ("post-deployment") : ℚ) / t * 100
  let prePct := (risks_by_timing fb ("pre-deployment") : ℚ) / t * 100
  let mediumPct := (risks_by_severity fb ("medium") : ℚ) / t * 100
  let humanPct := (risks_by_entity fb ("human") : ℚ) / t * 100
  (∃ v, (runAlerts fb).critical_risk_concentration = some v
    ∧ (v.alert = true ↔ highPct > 40) ∧ v.value = round2 highPct)
  ∧ (∃ v, (runAlerts fb).ai_dominance = some v
    ∧ (v.alert = true ↔ aiPct > 60) ∧ v.value = round2 aiPct)
  ∧ (∃ v, (runAlerts fb).intentional_threats = some v
    ∧ (v.alert = true ↔ risks_by_intent fb ("intentional") > 3)
    ∧ v.value = (risks_by_intent fb ("intentional") : ℚ))
  ∧ (∃ v, (runAlerts fb).operational_risks = some v
    ∧ (v.alert = true ↔ postPct > 70) ∧ v.value = round2 postPct)
  ∧ (∃ v, (runAlerts fb).low_preventable_ratio = some v
    ∧ (v.alert = true ↔ prePct < 10) ∧ v.value = round2 prePct)
  ∧ (∃ v, (runAlerts fb).medium_risk_accumulation = some v
    ∧ (v.alert = true ↔ mediumPct > 40) ∧ v.value = round2 mediumPct)
  ∧ (∃ v, (runAlerts fb).human_error_dominance = some v
    ∧ (v.alert = true ↔ humanPct > 50) ∧ v.value = round2 humanPct)
  ∧ (∃ v, (runAlerts fb).high_risk_fragmentation = some v
    ∧ (v.alert = true ↔
        ((domains_with_high fb).length ≥ 4 ∧ risks_by_severity fb ("high") ≥ 6))
    ∧ v.value = ((domains_with_high fb).length : ℚ))

/-- C7: for every fact base with at least one risk (all percentages
defined), each successfully computed alert flag is exactly the strict
comparison of the underlying unrounded value against the fixed spec
threshold (>60, >40, >3, >70, <10, >40, >50, and the ≥4-domains ∧
≥6-high conjunction), and the stored value is the 2-decimal-rounded
metric (the two count-valued alerts store the integer count itself). -/
theorem C7_alert_thresholds (fb : List Fact) (h : 0 < total_risks fb) :
    AlertContract fb := by
  have hne : total_risks fb ≠ 0 := by omega
  have hph : percentage_high_severity fb
      = some ((risks_by_severity fb ("high") : ℚ) / total_risks fb * 100) := by
    simp [percentage_high_severity, hne]
  unfold AlertContract
  refine ⟨?_, ?_, ?_, ?_, ?_, ?_, ?_, ?_⟩ <;>
    exact ⟨_, rfl, by simp [runAlerts, hph, if_pos h], by simp [runAlerts, hph, if_pos h]⟩

/-- Concrete fact base for the C7 witness: the two-risk scenario of
spec §8. -/
def c7FactBase : List Fact :=
  [Fact.riskFact ("2") ("1") 1 ("r1") ("high"),
   Fact.causalityEntity ("2") ("1") 1 ("ai"),
   Fact.causalityIntent ("2") ("1") 1 ("intentional"),
   Fact.causalityTiming ("2") ("1") 1 ("post-deployment"),
   Fact.riskFact ("2") ("1") 2 ("r2") ("low"),
   Fact.causalityEntity ("2") ("1") 2 ("human"),
   Fact.causalityIntent ("2") ("1") 2 ("unintentional"),
   Fact.causalityTiming ("2") ("1") 2 ("pre-deployment")]

/-- Witness for C7 at a concrete two-risk fact base. -/
theorem C7_witness : 0 < total_risks c7FactBase ∧ AlertContract c7FactBase :=
  ⟨by decide, C7_alert_thresholds c7FactBase (by decide)⟩

/-- Spec-side rendering of the two-level failure policy (claim C4): a
step of the Orchestrator raises to its caller exactly when the invoked
stage's final context carries a non-empty error list; on an empty list it
stores the result, whose metadata and payload seed the next stage; and a
failing stage short-circuits the whole run regardless of the remaining
stage functions. -/
def OrchestratorTwoLevel (s : Orch.OrchState) (c : Causality.CState)
    (r : Heuristic.HState) (rd : Domain.DState) : Prop :=
  ((∃ e, Orch.heuristic_step (fun _ => Except.ok r) s = Except.error e)
      ↔ r.errors ≠ [])
  ∧ (r.errors = [] →
      Orch.heuristic_step (fun _ => Except.ok r) s
        = Except.ok { s with heuristic_state := some r }
      ∧ Orch.reportSeedMetadata { s with heuristic_state := some r }
          = r.metadata.getD {})
  ∧ ((∃ e, Orch.domain_step (fun _ => rd) s = Except.error e) ↔ rd.errors ≠ [])
  ∧ (rd.errors = [] →
      Orch.domain_step (fun _ => rd) s = Except.ok { s with domain_state := rd }
      ∧ (Orch.causalitySeed rd).metadata = rd.metadata
      ∧ (Orch.causalitySeed rd).errors = []
      ∧ (Orch.heuristicSeed c).metadata = some c.metadata
      ∧ (Orch.heuristicSeed c).errors = [])
  ∧ (r.errors ≠ [] →
      ∀ (reportFn : Orch.OrchState → Except String Orch.OrchState)
        (rc : Causality.CState), rc.errors = [] → rd.errors = [] →
        Orch.run_orchestrator (fun _ => rd) (fun _ => rc)
            (fun _ => Except.ok r) reportFn {}
          = Except.error ("Heuristic analysis failed: " ++ Orch.renderErrors r.errors))

/-- C4: an Orchestrator step raises to its caller — aborting the run and
skipping every later stage — iff the invoked stage's final context has a
non-empty error list; with an empty list the stage's metadata and payload
are stored and passed as the seed of the next stage. -/
theorem C4_two_level_failure (s : Orch.OrchState) (c : Causality.CState)
    (r : Heuristic.HState) (rd : Domain.DState)
    (hc : s.causality_state = some c) :
    OrchestratorTwoLevel s c r rd := by
  unfold OrchestratorTwoLevel
  refine ⟨?_, ?_, ?_, ?_, ?_⟩
  · by_cases hr : r.errors = [] <;>
      simp [Orch.heuristic_step, hc, hr]
  · intro hr
    exact ⟨by simp [Orch.heuristic_step, hc, hr], by simp [Orch.reportSeedMetadata]⟩
  · by_cases hrd : rd.errors = [] <;> simp [Orch.domain_step, hrd]
  · intro hrd
    exact ⟨by simp [Orch.domain_step, hrd], rfl, rfl, rfl, rfl⟩
  · intro hr reportFn rc hrc hrd
    simp [Orch.run_orchestrator, Orch.domain_step, Orch.causality_step,
      Orch.heuristic_step, hrd, hrc, hr, Bind.bind, Except.bind]

/-- Concrete stage results for the C4 witness. -/
def c4OrchState : Orch.OrchState := { causality_state := some {} }

/-- Concrete failing heuristic result for the C4 witness. -/
def c4FailedHeuristic : Heuristic.HState := { errors := ["Prolog instance not available"] }

/-- Witness for C4 at concrete stage results (an error-free domain result
and a heuristic result with one recorded error). -/
theorem C4_witness :
    c4OrchState.causality_state = some {}
    ∧ OrchestratorTwoLevel c4OrchState {} c4FailedHeuristic {} :=
  ⟨rfl, C4_two_level_failure c4OrchState {} c4FailedHeuristic {} rfl⟩

/-- Spec-side rendering of claim C9: the run identifier after the domain
stage is the input document's identifier when one is present (no
re-minting), and the freshly minted `u` otherwise; every causality node,
every successful heuristic stage pass and every inter-stage seed of the
Orchestrator carries the metadata (hence the run id) through unchanged. -/
def RunIdThreading (doc : Domain.InputDoc) (u : String)
    (llm : Except String Analysis) (env : Option String) : Prop :=
  ((Domain.runStage (some doc) u llm env {}).metadata.run_id
      = some (pyOr ((doc.metadata.getD {}).run_id) u))
  ∧ (truthy ((doc.metadata.getD {}).run_id) = true →
      (Domain.runStage (some doc) u llm env {}).metadata.run_id
        = (doc.metadata.getD {}).run_id)
  ∧ (∀ (c : Causality.CState)
      (llmC : Except String (List (String × Causality.CEntry)))
      (envC : Option String),
      (Causality.runStage llmC envC c).metadata = c.metadata)
  ∧ (∀ (hSt r : Heuristic.HState) (m : Metadata) (pe ee we : Option String),
      hSt.metadata = some m → Heuristic.runStage pe ee we hSt = Except.ok r →
      r.metadata = some m)
  ∧ (∀ d : Domain.DState, (Orch.causalitySeed d).metadata = d.metadata)
  ∧ (∀ c : Causality.CState, (Orch.heuristicSeed c).metadata = some c.metadata)
  ∧ (∀ (os : Orch.OrchState) (hSt : Heuristic.HState),
      Orch.reportSeedMetadata { os with heuristic_state := some hSt }
        = hSt.metadata.getD {})

/-- C9: the run identifier is minted exactly once, by the domain stage
when the input document's metadata lacks a truthy one; thereafter the
causality, heuristic and report stages and the Orchestrator's inter-stage
seeds carry the same run id unchanged — no later stage or state function
replaces or re-mints it. -/
theorem C9_run_id_minted_once (doc : Domain.InputDoc) (u : String)
    (llm : Except String Analysis) (env : Option String) (hu : u ≠ "") :
    RunIdThreading doc u llm env := by
  unfold RunIdThreading
  refine ⟨domain_runStage_run_id doc u llm env hu, ?_, ?_, ?_, ?_, ?_, ?_⟩
  · intro htr
    rw [domain_runStage_run_id doc u llm env hu]
    exact pyOr_of_truthy _ u htr
  · exact fun c llmC envC => causality_runStage_meta llmC envC c
  · exact fun hSt r m pe ee we hm hok =>
      heuristic_runStage_meta pe ee we hSt r m hm hok
  · exact fun d => rfl
  · exact fun c => rfl
  · exact fun os hSt => rfl

/-- Concrete input document for the C9 witness: metadata present, no run
id, responses present. -/
def c9Doc : Domain.InputDoc := { metadata := some {} }

/-- Witness for C9 at a concrete input document and minted identifier. -/
theorem C9_witness :
    ("mintedRunId" : String) ≠ "" ∧ RunIdThreading c9Doc ("mintedRunId") (Except.ok []) none :=
  ⟨by decide, C9_run_id_minted_once c9Doc ("mintedRunId") (Except.ok []) none (by decide)⟩

end Area
